import Mathlib

/-!
Verification of notebook-on-kube (src/notebook_on_kube/utils.py and
src/notebook_on_kube/main.py) against its natural-language specification.

The Python code is shallowly embedded: pure helpers become Lean functions;
calls to the external `kubectl`/`helm` binaries are modelled by oracle
functions passed as arguments (mapping the command body to the outcome the
external tool would produce); exceptions become `Except` values; the HTTP
layer's exceptions carry their status code and detail string.
-/

namespace NOK

/-- An `HTTPException(status_code, detail)` raised by the FastAPI handlers. -/
structure HTTPError where
  status : Nat
  detail : String
deriving DecidableEq, Repr

/-! ## utils.py -/

/-- The possible outcomes of `subprocess.check_output` as observed by
`run_command` in utils.py: a zero exit with captured stdout, a
`CalledProcessError` (non-zero exit) carrying the captured stderr, a
`TimeoutExpired` carrying the captured stderr, or a `FileNotFoundError`
(missing executable) whose own text is the diagnostic. -/
inductive RunOutcome where
  | success (stdout : String)
  | calledProcessError (stderr : String)
  | timeoutExpired (stderr : String)
  | fileNotFound (msg : String)
deriving DecidableEq, Repr

/-- `run_command` (utils.py): returns the captured stdout on a zero exit;
maps `CalledProcessError` and `TimeoutExpired` to `NOKException(e.stderr)`
and `FileNotFoundError` to `NOKException(e)`.  A `NOKException` is modelled
as `Except.error` carrying the diagnostic string. -/
def run_command : RunOutcome → Except String String
  | .success stdout => .ok stdout
  | .calledProcessError stderr => .error stderr
  | .timeoutExpired stderr => .error stderr
  | .fileNotFound msg => .error msg

/-- Lowercase-alphanumeric character class `[a-z0-9]`. -/
def isLowerAlnum (c : Char) : Bool :=
  (Char.ofNat 97 ≤ c && c ≤ Char.ofNat 122) || (Char.ofNat 48 ≤ c && c ≤ Char.ofNat 57)

/-- Character class `[-a-z0-9]` of the segment body. -/
def isSegChar (c : Char) : Bool :=
  isLowerAlnum c || c = Char.ofNat 45

/-- One name segment, the regex piece of valid_name
matching a nonempty run of `[-a-z0-9]` characters that starts and ends with
`[a-z0-9]`. -/
def segMatch : List Char → Bool
  | [] => false
  | c :: cs => isLowerAlnum c && cs.all isSegChar && isLowerAlnum (cs.getLastD c)

/-- Split a character list on the dot separators of the valid_name regex;
always returns at least one (possibly empty) piece, so consecutive, leading
or trailing dots yield empty pieces. -/
def splitDots : List Char → List (List Char)
  | [] => [[]]
  | c :: cs =>
    if c = Char.ofNat 46 then [] :: splitDots cs
    else
      match splitDots cs with
      | [] => [[c]]
      | p :: ps => (c :: p) :: ps

/-- Whole-string match of the valid_name regex body (one or more
dot-separated segments): since a segment may not contain a dot, the string
matches exactly when every dot-separated piece is a segment. -/
def grammarMatch (s : List Char) : Bool :=
  (splitDots s).all segMatch

/-- Python `re.match` with a pattern wrapped in anchors matches the whole
string, or the whole string up to one final newline: the dollar anchor of
the `re` module also matches just before a newline at the end of the
string. -/
def pyDollarMatch (s : List Char) : Bool :=
  grammarMatch s ||
    (match s.getLast? with
     | some c => c = Char.ofNat 10 && grammarMatch s.dropLast
     | none => false)

/-- `valid_name` (utils.py): rejects strings longer than `max_size`, then
matches the compiled regex with Python `re.match` semantics; on success the
input string is returned unchanged. -/
def valid_name (string : String) (max_size : Nat) : Except String String :=
  if string.length > max_size then
    .error ("string=" ++ string ++ " has more than " ++ toString max_size ++ " characters.")
  else if !pyDollarMatch string.data then
    .error ("string=" ++ string ++ " must consist of lower case alphanumeric characters," ++
      " - or ., must start and end with an alphanumeric character and match the regex.")
  else
    .ok string

def JUPYTER_NOTEBOOK_CHART_NAME : String := "jupyter-notebook"

/-- `is_notebook_release` (utils.py): a release is in scope iff its chart
identifier starts with the notebook chart name followed by a hyphen;
out-of-family releases are logged and skipped by the caller. -/
def is_notebook_release (chart : String) : Bool :=
  List.isPrefixOf (JUPYTER_NOTEBOOK_CHART_NAME ++ "-").data chart.data

/-- `get_notebook_pod_name` (utils.py): the single pod of a notebook is the
notebook name suffixed with "-0". -/
def get_notebook_pod_name (notebook_name : String) : String :=
  notebook_name ++ "-0"

/-! ## main.py — release catalog -/

/-- One entry of the JSON array printed by the release-listing command:
`helm list --output json` yields objects with (at least) a release name and
a chart identifier. -/
structure Release where
  name : String
  chart : String
deriving DecidableEq, Repr

/-- The command body built by `notebook_exists` (main.py): a listing
filtered by the exact-match anchored pattern for the given name. -/
def helmExistsBody (notebook_name : String) : List String :=
  ["list", "--filter", "^" ++ notebook_name ++ "$", "--all", "--output", "json"]

/-- `notebook_exists` (main.py).  `helmList` is the oracle for
`json.loads(helm(body, ...))`: it maps a helm command body to the parsed
release array, or to the `NOKException` text when the command fails.  The
function returns `true` iff the parsed array has exactly one entry; a
listing failure becomes an internal-server-error `HTTPException`. -/
def notebook_exists (helmList : List String → Except String (List Release))
    (notebook_name : String) : Except HTTPError Bool :=
  match helmList (helmExistsBody notebook_name) with
  | .ok entries => .ok (entries.length == 1)
  | .error exc =>
      .error ⟨500, "Could not check if the Notebook notebook_name=" ++ notebook_name ++
        " exists: " ++ exc⟩

/-- `existing_notebook_name` (main.py): the dependency guarding delete,
scale and events; fails with a does-not-exist `HTTPException` when
`notebook_exists` is not `true`. -/
def existing_notebook_name (helmList : List String → Except String (List Release))
    (notebook_name : String) : Except HTTPError String :=
  match notebook_exists helmList notebook_name with
  | .error e => .error e
  | .ok true => .ok notebook_name
  | .ok false =>
      .error ⟨400, "The Notebook notebook_name=" ++ notebook_name ++ " does not exist."⟩

/-- `delete_notebook` (main.py route): requires the notebook to exist, then
runs `helm delete <name>`.  `helmRun` is the oracle for the raw helm call;
the second component of the result is the trace of helm command bodies the
handler issued beyond the existence check (so the uninstall call is issued
iff the trace is nonempty). -/
def delete_notebook (helmList : List String → Except String (List Release))
    (helmRun : List String → Except String String) (notebook_name : String) :
    Except HTTPError String × List (List String) :=
  match existing_notebook_name helmList notebook_name with
  | .error e => (.error e, [])
  | .ok name =>
    match helmRun ["delete", name] with
    | .ok _ => (.ok "redirect:list_notebooks", [["delete", name]])
    | .error exc =>
        (.error ⟨500, "Could not delete the Notebook notebook_name=" ++ name ++ ": " ++ exc⟩,
         [["delete", name]])

/-! ## main.py — scaling -/

/-- `scale_notebook_statefulset` (main.py): the kubectl command body used to
scale the statefulset selected by the instance label. -/
def scaleBody (notebook_name : String) (replicas : Nat) : List String :=
  ["scale", "statefulset", "--selector", "app.kubernetes.io/instance=" ++ notebook_name,
   "--replicas", toString replicas]

/-- One orchestration call issued while processing a request: a kubectl or
a helm invocation with the given command body. -/
inductive Cmd where
  | kubectl (body : List String)
  | helm (body : List String)
deriving DecidableEq, Repr

/-- The capability-probe command body issued by `validate_kube_token`
(main.py): kubectl auth can-i list secret. -/
def authBody : List String := ["auth", "can-i", "list", "secret"]

/-- `validate_kube_token` (main.py): issues the capability probe and turns
a `NOKException` into the 401 `HTTPException` carrying the diagnostic. -/
def validate_kube_token (kubectlRun : List String → Except String String) :
    Except HTTPError Unit :=
  match kubectlRun authBody with
  | .ok _ => .ok ()
  | .error exc => .error ⟨401, "The Kubernetes token in not valid: " ++ exc⟩

/-- The `scale_notebook` route (main.py), modelled as FastAPI processes the
request.  FastAPI solves the route's dependencies, in signature order,
before it validates the route's own query parameters: first
`valid_kube_token` runs the capability probe (a kubectl call), then
`existing_notebook_name` runs the exact-match listing (a helm call) and
raises the does-not-exist error for an absent name; only after both
dependencies succeed is the `scale` query parameter checked against
`Literal["0", "1"]` (any other value is rejected with a 422 validation
response and the handler body never runs); finally the handler body issues
the statefulset scale command.  The second component is the trace of every
orchestration call issued, in order. -/
def scale_notebook (scale : String)
    (kubectlRun : List String → Except String String)
    (helmList : List String → Except String (List Release)) (notebook_name : String) :
    Except HTTPError String × List Cmd :=
  match validate_kube_token kubectlRun with
  | .error e => (.error e, [.kubectl authBody])
  | .ok _ =>
    match existing_notebook_name helmList notebook_name with
    | .error e => (.error e, [.kubectl authBody, .helm (helmExistsBody notebook_name)])
    | .ok name =>
      if scale = "0" ∨ scale = "1" then
        let replicas : Nat := if scale = "1" then 1 else 0
        match kubectlRun (scaleBody name replicas) with
        | .ok _ =>
            (.ok "redirect:list_notebooks",
             [.kubectl authBody, .helm (helmExistsBody notebook_name),
              .kubectl (scaleBody name replicas)])
        | .error exc =>
            (.error ⟨500, "Could not scale the Notebook notebook_name=" ++ name ++ ": " ++ exc⟩,
             [.kubectl authBody, .helm (helmExistsBody notebook_name),
              .kubectl (scaleBody name replicas)])
      else
        (.error ⟨422, "Input should be 0 or 1"⟩,
         [.kubectl authBody, .helm (helmExistsBody notebook_name)])

/-! ## main.py — events -/

/-- The header line appended for each object before its events are
fetched. -/
def eventsHeader (obj : String) : String :=
  "* Events involving " ++ obj ++ ":\n"

/-- The loop body of `get_notebook_events`: for each object name, append
the header, then query the events oracle (`kubectl get event
--field-selector involvedObject.name=<obj>`); a query failure aborts with
an internal-server-error `HTTPException`.  Also returns the list of object
names actually queried, in order. -/
def eventsLoop (getEvents : String → Except String String) (notebook_name : String) :
    List String → Except HTTPError (List String) × List String
  | [] => (.ok [], [])
  | obj :: rest =>
    match getEvents obj with
    | .ok out =>
      match eventsLoop getEvents notebook_name rest with
      | (.ok evs, qs) => (.ok (eventsHeader obj :: out :: evs), obj :: qs)
      | (.error e, qs) => (.error e, obj :: qs)
    | .error exc =>
        (.error ⟨500, "Could not get events of notebook_name=" ++ notebook_name ++ ": " ++ exc⟩,
         [obj])

/-- `get_notebook_events` (main.py): queries events for the notebook name,
its pod name, and the pod's data volume claim name, in that order, and
joins the collected lines with newlines. -/
def get_notebook_events (getEvents : String → Except String String)
    (notebook_name : String) : Except HTTPError String × List String :=
  let pod_name := get_notebook_pod_name notebook_name
  match eventsLoop getEvents notebook_name [notebook_name, pod_name, "data-" ++ pod_name] with
  | (.ok evs, qs) => (.ok (String.intercalate "\n" evs), qs)
  | (.error e, qs) => (.error e, qs)

/-! ## main.py — status reconciliation -/

/-- The fields of the statefulset snapshot that `fetch_notebook_info`
reads: `spec.template.spec.containers[0].image`. -/
structure StsView where
  image : String
deriving DecidableEq, Repr

/-- The fields of the pod snapshot that `fetch_notebook_info` reads:
`spec.containers[0].image`, `status.phase` and the optional
`status.startTime`. -/
structure PodView where
  image : String
  phase : String
  startTime : Option String
deriving DecidableEq, Repr

/-- The info dictionary built by `fetch_notebook_info`; after the function
returns it always carries exactly the keys image, status and
start_time. -/
structure NotebookInfo where
  image : String
  status : String
  start_time : String
deriving DecidableEq, Repr

/-- Class variable `Notebook.missing_statefulset` (main.py). -/
def missing_statefulsetLit : String := "StatefulSet Missing"

/-- Class variable `Notebook.not_running` (main.py). -/
def not_runningLit : String := "Not Running"

/-- Class variable `Notebook.error` (main.py), the default of the image,
status and start_time fields. -/
def errorLit : String := "Error"

/-- `NotebookStatus.fetch_notebook_info` (main.py).  The two oracles stand
for `get_notebook_statefulset` and `get_notebook_pod` on the release:
`.ok none` when the selector matched no object (the `IndexError` branch),
`.ok (some v)` for the first matching object, `.error` when the kubectl
call raised `NOKException` (which propagates).  The statefulset is queried
first; then the pod; then the info dictionary is assembled with the pod
view overriding the statefulset view, the start time only when the pod
reports one. -/
def fetch_notebook_info (sts : Except String (Option StsView))
    (pod : Except String (Option PodView)) : Except String NotebookInfo :=
  match sts with
  | .error exc => .error exc
  | .ok stsV =>
    match pod with
    | .error exc => .error exc
    | .ok podV =>
      let info : NotebookInfo :=
        match stsV with
        | some s => ⟨s.image, not_runningLit, not_runningLit⟩
        | none => ⟨missing_statefulsetLit, missing_statefulsetLit, missing_statefulsetLit⟩
      .ok (match podV with
        | some p =>
          ⟨p.image, p.phase,
           match p.startTime with
           | some t => t
           | none => info.start_time⟩
        | none => info)

/-- The `NotebookStatus.Notebook` pydantic model (main.py): exactly the
fields name, image, status, start_time. -/
structure Notebook where
  name : String
  image : String
  status : String
  start_time : String
deriving DecidableEq, Repr

/-- The field names the `Notebook` model admits. -/
def notebookFields : List String := ["name", "image", "status", "start_time"]

/-- Construction of a `Notebook` from keyword arguments, as
`Notebook(**notebook_info)` does: the model is declared with
`extra=Extra.forbid`, so any keyword outside the four declared fields is a
validation error; `name` is required; the other three fields default to
the literal "Error". -/
def Notebook.fromKwargs (kwargs : List (String × String)) : Except String Notebook :=
  if kwargs.all (fun kv => notebookFields.contains kv.1) then
    match kwargs.lookup "name" with
    | none => .error "field required: name"
    | some n =>
        .ok ⟨n, ((kwargs.lookup "image").getD errorLit),
             ((kwargs.lookup "status").getD errorLit),
             ((kwargs.lookup "start_time").getD errorLit)⟩
  else
    .error "extra fields not permitted"

/-- `NotebookStatus.template_context` (main.py), restricted to the loop
over the already-listed releases.  `fetchInfo` is the oracle for
`fetch_notebook_info` on a release name.  Out-of-family releases are
skipped; when `fetch_notebook_info` raises `NOKException` the message is
logged (second component) and the notebook keeps the model defaults for
image, status and start_time.  The notebook list and the log are returned
in release order. -/
def template_context (fetchInfo : String → Except String NotebookInfo) :
    List Release → List Notebook × List String
  | [] => ([], [])
  | r :: rest =>
    if is_notebook_release r.chart then
      let entry : Notebook × Option String :=
        match fetchInfo r.name with
        | .ok info => (⟨r.name, info.image, info.status, info.start_time⟩, none)
        | .error exc =>
            (⟨r.name, errorLit, errorLit, errorLit⟩,
             some ("Could not fetch info about release_name=" ++ r.name ++ ": " ++ exc))
      let tail := template_context fetchInfo rest
      (entry.1 :: tail.1,
       match entry.2 with
       | some l => l :: tail.2
       | none => tail.2)
    else template_context fetchInfo rest

/-! ## main.py — create and the temporary values file -/

/-- `NotebookConfig.form_data_to_values_file` (main.py).  The argument is
the optional form field: `none` when the form has no helm_values key,
otherwise the outcome of `yaml.load` on the field text (`.error` for a
`YAMLError`).  `openFiles` counts the temporary files currently open; the
function creates one `tempfile.NamedTemporaryFile()` as soon as the field
is present, and on a parse failure raises the bad-request `HTTPException`
without closing it. -/
def form_data_to_values_file (helm_values : Option (Except String Unit))
    (openFiles : Nat) : Except HTTPError (Option Unit) × Nat :=
  match helm_values with
  | none => (.ok none, openFiles)
  | some parsed =>
    match parsed with
    | .ok _ => (.ok (some ()), openFiles + 1)
    | .error exc =>
        (.error ⟨400, "Provided helm_values cannot be parsed: " ++ exc⟩, openFiles + 1)

/-- `deploy_notebook` (main.py): runs the helm install (mapping a failure
to an internal-server-error `HTTPException`) and, in its finally block,
closes the values file when one was passed. -/
def deploy_notebook (values_file : Option Unit) (helmInstall : Except String String)
    (openFiles : Nat) : Except HTTPError Unit × Nat :=
  let res : Except HTTPError Unit :=
    match helmInstall with
    | .ok _ => .ok ()
    | .error exc => .error ⟨500, "Could not deploy the Notebook: " ++ exc⟩
  match values_file with
  | some _ => (res, openFiles - 1)
  | none => (res, openFiles)

/-- `create_notebook` (main.py route), starting with no temporary file
open: rejects an existing name, then builds the values file from the form
data and deploys.  The second component is the number of temporary files
still open when the request finishes. -/
def create_notebook (existsCheck : Except HTTPError Bool)
    (helm_values : Option (Except String Unit)) (helmInstall : Except String String) :
    Except HTTPError Unit × Nat :=
  match existsCheck with
  | .error e => (.error e, 0)
  | .ok true => (.error ⟨400, "The Notebook already exists."⟩, 0)
  | .ok false =>
    match form_data_to_values_file helm_values 0 with
    | (.error e, openF) => (.error e, openF)
    | (.ok vf, openF) => deploy_notebook vf helmInstall openF

/-! ## Helper lemmas about the listing loop -/

/-- The listing loop keeps exactly the in-family releases: no release is
dropped for any other reason, in particular not because its info fetch
failed. -/
theorem template_context_first_length (fetchInfo : String → Except String NotebookInfo) :
    ∀ releases : List Release,
      (template_context fetchInfo releases).1.length =
        (releases.filter fun r => is_notebook_release r.chart).length := by
  intro releases
  induction releases with
  | nil => rfl
  | cons r rest ih =>
    by_cases h : is_notebook_release r.chart
    · cases hf : fetchInfo r.name <;>
        simp [template_context, h, hf, List.filter_cons, ih]
    · simp [template_context, h, List.filter_cons, ih]

/-- When the info fetch of an in-family release fails, the listing loop
still emits a notebook for it (with all non-name fields at the model
default) and records the failure message in the log. -/
theorem template_context_mem_error (fetchInfo : String → Except String NotebookInfo)
    (releases : List Release) :
    ∀ (r : Release) (msg : String), r ∈ releases → is_notebook_release r.chart = true →
      fetchInfo r.name = .error msg →
      (⟨r.name, errorLit, errorLit, errorLit⟩ : Notebook) ∈ (template_context fetchInfo releases).1 ∧
      ("Could not fetch info about release_name=" ++ r.name ++ ": " ++ msg) ∈
        (template_context fetchInfo releases).2 := by
  induction releases with
  | nil => intro r msg hmem; simp at hmem
  | cons head rest ih =>
    intro r msg hmem hscope herr
    rcases List.mem_cons.mp hmem with heq | hmem'
    · subst heq
      simp [template_context, hscope, herr]
    · have tail := ih r msg hmem' hscope herr
      by_cases hh : is_notebook_release head.chart
      · cases hf : fetchInfo head.name with
        | ok info =>
          simp only [template_context, hh, if_true, hf, List.mem_cons]
          exact ⟨Or.inr tail.1, tail.2⟩
        | error exc =>
          simp only [template_context, hh, if_true, hf, List.mem_cons]
          exact ⟨Or.inr tail.1, Or.inr tail.2⟩
      · simpa [template_context, hh] using tail

/-! ## The claims -/

/-- Claim C1, counterexample: with neither a statefulset view nor a pod
view, fetch_notebook_info sets every field to the literal
"StatefulSet Missing", which is not the literal "Missing Backing Resource"
stated by the claim. -/
theorem C1_counterexample :
    fetch_notebook_info (.ok none) (.ok none) =
      .ok ⟨missing_statefulsetLit, missing_statefulsetLit, missing_statefulsetLit⟩ ∧
    missing_statefulsetLit ≠ "Missing Backing Resource" :=
  ⟨rfl, by decide⟩

/-- Claim C1 as amended: the reconciliation precedence holds with the
literal "StatefulSet Missing" in place of "Missing Backing Resource" —
with no view every field is "StatefulSet Missing"; a statefulset view
alone gives its image and "Not Running" for status and start_time; a pod
view overrides status with the phase and image with the pod image, and
start_time only when the pod reports one, otherwise the earlier value is
kept. -/
theorem C1_amended :
    fetch_notebook_info (.ok none) (.ok none) =
      .ok ⟨missing_statefulsetLit, missing_statefulsetLit, missing_statefulsetLit⟩ ∧
    (∀ s : StsView, fetch_notebook_info (.ok (some s)) (.ok none) =
      .ok ⟨s.image, not_runningLit, not_runningLit⟩) ∧
    (∀ (s : StsView) (p : PodView), fetch_notebook_info (.ok (some s)) (.ok (some p)) =
      .ok ⟨p.image, p.phase, p.startTime.getD not_runningLit⟩) ∧
    (∀ p : PodView, fetch_notebook_info (.ok none) (.ok (some p)) =
      .ok ⟨p.image, p.phase, p.startTime.getD missing_statefulsetLit⟩) := by
  refine ⟨rfl, fun s => rfl, fun s p => ?_, fun p => ?_⟩ <;>
    · obtain ⟨pi, pp, pst⟩ := p
      cases pst <;> rfl

/-- Claim C2, evaluation at the failing input: a Create on a fresh name
whose configuration override fails to parse ends with one temporary file
still open (it is never closed on that path), while the successful-install
and failed-install paths both end with the file closed. -/
theorem C2_bug_eval :
    create_notebook (.ok false) (some (.error "bad yaml")) (.ok "") =
      (.error ⟨400, "Provided helm_values cannot be parsed: bad yaml"⟩, 1) ∧
    create_notebook (.ok false) (some (.ok ())) (.ok "") = (.ok (), 0) ∧
    create_notebook (.ok false) (some (.ok ())) (.error "helm failed") =
      (.error ⟨500, "Could not deploy the Notebook: helm failed"⟩, 0) :=
  ⟨rfl, rfl, rfl⟩

/-- Claim C3, counterexample: when reconciliation of release nok-u-a fails
with message "boom", the listing still returns both notebooks, but the
failure message is only logged — the notebook record for nok-u-a is
exactly the four-field record with every non-name field "Error", and none
of its fields carries the failure message (there is no errors field on the
record at all). -/
theorem C3_counterexample :
    template_context
        (fun n => if n = "nok-u-a" then .error "boom" else .ok ⟨"img", "Running", "t0"⟩)
        [⟨"nok-u-a", "jupyter-notebook-0.1.0"⟩, ⟨"nok-u-b", "jupyter-notebook-0.1.0"⟩] =
      ([⟨"nok-u-a", errorLit, errorLit, errorLit⟩, ⟨"nok-u-b", "img", "Running", "t0"⟩],
       ["Could not fetch info about release_name=nok-u-a: boom"]) ∧
    errorLit ≠ "boom" ∧ "nok-u-a" ≠ "boom" :=
  ⟨rfl, by decide, by decide⟩

/-- Claim C3 as amended: when reconciliation of an in-scope release fails,
List does not fail as a whole — the failure message is logged (not stored
on the Notebook, whose non-name fields keep the default "Error"), the
Notebook is still included, and every other in-scope release still yields
an entry. -/
theorem C3_amended (fetchInfo : String → Except String NotebookInfo)
    (releases : List Release) (r : Release) (msg : String)
    (hmem : r ∈ releases) (hscope : is_notebook_release r.chart = true)
    (herr : fetchInfo r.name = .error msg) :
    (⟨r.name, errorLit, errorLit, errorLit⟩ : Notebook) ∈ (template_context fetchInfo releases).1 ∧
    ("Could not fetch info about release_name=" ++ r.name ++ ": " ++ msg) ∈
      (template_context fetchInfo releases).2 ∧
    (template_context fetchInfo releases).1.length =
      (releases.filter fun x => is_notebook_release x.chart).length :=
  ⟨(template_context_mem_error fetchInfo releases r msg hmem hscope herr).1,
   (template_context_mem_error fetchInfo releases r msg hmem hscope herr).2,
   template_context_first_length fetchInfo releases⟩

/-- Claim C3 amended, witness at a concrete listing. -/
theorem C3_amended_witness :
    (⟨"nok-u-a", errorLit, errorLit, errorLit⟩ : Notebook) ∈
      (template_context (fun _ => .error "boom")
        [⟨"nok-u-a", "jupyter-notebook-0.1.0"⟩, ⟨"nok-u-b", "jupyter-notebook-0.1.0"⟩]).1 ∧
    ("Could not fetch info about release_name=" ++ "nok-u-a" ++ ": " ++ "boom") ∈
      (template_context (fun _ => .error "boom")
        [⟨"nok-u-a", "jupyter-notebook-0.1.0"⟩, ⟨"nok-u-b", "jupyter-notebook-0.1.0"⟩]).2 ∧
    (template_context (fun _ => .error "boom")
        [⟨"nok-u-a", "jupyter-notebook-0.1.0"⟩, ⟨"nok-u-b", "jupyter-notebook-0.1.0"⟩]).1.length =
      (([⟨"nok-u-a", "jupyter-notebook-0.1.0"⟩, ⟨"nok-u-b", "jupyter-notebook-0.1.0"⟩] :
          List Release).filter fun x => is_notebook_release x.chart).length :=
  C3_amended (fun _ => .error "boom")
    [⟨"nok-u-a", "jupyter-notebook-0.1.0"⟩, ⟨"nok-u-b", "jupyter-notebook-0.1.0"⟩]
    ⟨"nok-u-a", "jupyter-notebook-0.1.0"⟩ "boom" (by decide) (by decide) rfl

/-- Claim C4: when the exact-match listing for a name does not return
exactly one entry, the delete route fails with the does-not-exist error
and issues no uninstall command; when it returns exactly one entry, the
uninstall command for that name is issued. -/
theorem C4_delete_guard (helmList : List String → Except String (List Release))
    (helmRun : List String → Except String String) (name : String)
    (entries : List Release) (hList : helmList (helmExistsBody name) = .ok entries) :
    (entries.length ≠ 1 →
      delete_notebook helmList helmRun name =
        (.error ⟨400, "The Notebook notebook_name=" ++ name ++ " does not exist."⟩, [])) ∧
    (entries.length = 1 →
      (delete_notebook helmList helmRun name).2 = [["delete", name]]) := by
  constructor
  · intro hne
    have hb : (entries.length == 1) = false := by simpa using hne
    simp [delete_notebook, existing_notebook_name, notebook_exists, hList, hb]
  · intro he
    have hb : (entries.length == 1) = true := by simpa using he
    cases hrun : helmRun ["delete", name] <;>
      simp [delete_notebook, existing_notebook_name, notebook_exists, hList, hb, hrun]

/-- Claim C4, witness: concrete delete calls with an empty listing (no
uninstall issued) and a singleton listing (uninstall issued). -/
theorem C4_delete_guard_witness :
    delete_notebook (fun _ => .ok []) (fun _ => .ok "") "nok-t-x" =
      (.error ⟨400, "The Notebook notebook_name=" ++ "nok-t-x" ++ " does not exist."⟩, []) ∧
    (delete_notebook (fun _ => .ok [⟨"nok-t-x", "jupyter-notebook-1"⟩]) (fun _ => .ok "")
        "nok-t-x").2 = [["delete", "nok-t-x"]] :=
  ⟨(C4_delete_guard (fun _ => .ok []) (fun _ => .ok "") "nok-t-x" [] rfl).1 (by decide),
   (C4_delete_guard (fun _ => .ok [⟨"nok-t-x", "jupyter-notebook-1"⟩]) (fun _ => .ok "")
      "nok-t-x" [⟨"nok-t-x", "jupyter-notebook-1"⟩] rfl).2 (by decide)⟩

/-- Claim C5: notebook_exists queries with the exact-match anchored filter
and returns true iff that listing returns exactly one entry (false for
zero or more than one); a failure of the listing command becomes the
internal-server-error exception carrying the diagnostic. -/
theorem C5_exists_iff (helmList : List String → Except String (List Release)) (name : String) :
    (∀ entries : List Release, helmList (helmExistsBody name) = .ok entries →
      ((notebook_exists helmList name = .ok true ↔ entries.length = 1) ∧
       (entries.length ≠ 1 → notebook_exists helmList name = .ok false))) ∧
    (∀ exc : String, helmList (helmExistsBody name) = .error exc →
      notebook_exists helmList name =
        .error ⟨500, "Could not check if the Notebook notebook_name=" ++ name ++
          " exists: " ++ exc⟩) := by
  constructor
  · intro entries hOk
    constructor
    · simp [notebook_exists, hOk]
    · intro hne
      have hb : (entries.length == 1) = false := by simpa using hne
      simp [notebook_exists, hOk, hb]
  · intro exc hErr
    simp [notebook_exists, hErr]

/-- Claim C5, witness: a singleton listing yields true, an empty and a
two-entry listing yield false, and a failing listing yields the
internal-server-error exception. -/
theorem C5_exists_iff_witness :
    notebook_exists (fun _ => .ok [⟨"nok-t-x", "jupyter-notebook-1"⟩]) "nok-t-x" = .ok true ∧
    notebook_exists (fun _ => .ok []) "nok-t-x" = .ok false ∧
    notebook_exists
      (fun _ => .ok [⟨"nok-t-x", "jupyter-notebook-1"⟩, ⟨"nok-t-y", "jupyter-notebook-1"⟩])
      "nok-t-x" = .ok false ∧
    notebook_exists (fun _ => .error "boom") "nok-t-x" =
      .error ⟨500, "Could not check if the Notebook notebook_name=" ++ "nok-t-x" ++
        " exists: " ++ "boom"⟩ :=
  ⟨((C5_exists_iff (fun _ => .ok [⟨"nok-t-x", "jupyter-notebook-1"⟩]) "nok-t-x").1
      [⟨"nok-t-x", "jupyter-notebook-1"⟩] rfl).1.mpr (by decide),
   ((C5_exists_iff (fun _ => .ok []) "nok-t-x").1 [] rfl).2 (by decide),
   ((C5_exists_iff
        (fun _ => .ok [⟨"nok-t-x", "jupyter-notebook-1"⟩, ⟨"nok-t-y", "jupyter-notebook-1"⟩])
        "nok-t-x").1
      [⟨"nok-t-x", "jupyter-notebook-1"⟩, ⟨"nok-t-y", "jupyter-notebook-1"⟩] rfl).2 (by decide),
   (C5_exists_iff (fun _ => .error "boom") "nok-t-x").2 "boom" rfl⟩

/-- Claim C6: run_command maps a non-zero exit and a timeout to the
exception carrying the captured stderr, a missing executable to the
exception carrying that failure's own text, and returns the captured
stdout unchanged on a zero exit — all three failures land in the same
single exception family. -/
theorem C6_run_command_mapping :
    (∀ stdout : String, run_command (.success stdout) = .ok stdout) ∧
    (∀ stderr : String, run_command (.calledProcessError stderr) = .error stderr) ∧
    (∀ stderr : String, run_command (.timeoutExpired stderr) = .error stderr) ∧
    (∀ msg : String, run_command (.fileNotFound msg) = .error msg) :=
  ⟨fun _ => rfl, fun _ => rfl, fun _ => rfl, fun _ => rfl⟩

/-- Claim C7: for a notebook name the event aggregation queries exactly
the three object names — the name itself, the name suffixed "-0", and that
suffixed name with "data-" in front — in that order; when all three
queries succeed the report is the newline join of a header line and the
raw output for each object, in that order, whatever the outputs are
(including empty); when any query fails, the whole aggregation aborts with
the internal-server-error exception. -/
theorem C7_events_shape (getEvents : String → Except String String) (n : String) :
    (∀ o1 o2 o3 : String, getEvents n = .ok o1 → getEvents (n ++ "-0") = .ok o2 →
      getEvents ("data-" ++ (n ++ "-0")) = .ok o3 →
      get_notebook_events getEvents n =
        (.ok (String.intercalate "\n"
          [eventsHeader n, o1, eventsHeader (n ++ "-0"), o2,
           eventsHeader ("data-" ++ (n ++ "-0")), o3]),
         [n, n ++ "-0", "data-" ++ (n ++ "-0")])) ∧
    (∀ exc : String, getEvents n = .error exc →
      (get_notebook_events getEvents n).1 =
        .error ⟨500, "Could not get events of notebook_name=" ++ n ++ ": " ++ exc⟩) ∧
    (∀ (o1 exc : String), getEvents n = .ok o1 → getEvents (n ++ "-0") = .error exc →
      (get_notebook_events getEvents n).1 =
        .error ⟨500, "Could not get events of notebook_name=" ++ n ++ ": " ++ exc⟩) ∧
    (∀ (o1 o2 exc : String), getEvents n = .ok o1 → getEvents (n ++ "-0") = .ok o2 →
      getEvents ("data-" ++ (n ++ "-0")) = .error exc →
      (get_notebook_events getEvents n).1 =
        .error ⟨500, "Could not get events of notebook_name=" ++ n ++ ": " ++ exc⟩) := by
  refine ⟨fun o1 o2 o3 h1 h2 h3 => ?_, fun exc h1 => ?_, fun o1 exc h1 h2 => ?_,
    fun o1 o2 exc h1 h2 h3 => ?_⟩
  · simp [get_notebook_events, eventsLoop, get_notebook_pod_name, h1, h2, h3]
  · simp [get_notebook_events, eventsLoop, get_notebook_pod_name, h1]
  · simp [get_notebook_events, eventsLoop, get_notebook_pod_name, h1, h2]
  · simp [get_notebook_events, eventsLoop, get_notebook_pod_name, h1, h2, h3]

/-- Claim C7, witness: all-empty outputs still give the three headers in
order, and a failure of the middle query aborts with the
internal-server-error exception. -/
theorem C7_events_shape_witness :
    get_notebook_events (fun _ => .ok "") "nok-bar-foo" =
      (.ok (String.intercalate "\n"
        [eventsHeader "nok-bar-foo", "", eventsHeader ("nok-bar-foo" ++ "-0"), "",
         eventsHeader ("data-" ++ ("nok-bar-foo" ++ "-0")), ""]),
       ["nok-bar-foo", "nok-bar-foo" ++ "-0", "data-" ++ ("nok-bar-foo" ++ "-0")]) ∧
    (get_notebook_events
        (fun s => if s = "nok-bar-foo-0" then .error "boom" else .ok "") "nok-bar-foo").1 =
      .error ⟨500, "Could not get events of notebook_name=" ++ "nok-bar-foo" ++ ": " ++ "boom"⟩ :=
  ⟨(C7_events_shape (fun _ => .ok "") "nok-bar-foo").1 "" "" "" rfl rfl rfl,
   (C7_events_shape (fun s => if s = "nok-bar-foo-0" then .error "boom" else .ok "")
      "nok-bar-foo").2.2.1 "" "boom" rfl rfl⟩

/-- Claim C8, evaluation at the failing input: the two-character string of
a lowercase a followed by a newline is accepted and returned by
valid_name, although the newline is outside the allowed character class
and the regex body itself does not match the string — only the Python
dollar-anchor behaviour before a final newline lets it through. -/
theorem C8_bug_eval :
    valid_name "a\n" 30 = .ok "a\n" ∧
    ("a\n".data.all fun c => isSegChar c || c = Char.ofNat 46) = false ∧
    grammarMatch "a\n".data = false :=
  ⟨rfl, by decide, by decide⟩

/-- Claim C9, counterexample: with scale value 2, the request does NOT
fail before any orchestration call — the credential probe and the
existence listing are both issued first.  On an absent name the result is
even the 400 does-not-exist failure, not the scale-value rejection; on an
existing name the 422 validation failure comes only after the two
orchestration calls (the trace is not empty). -/
theorem C9_counterexample :
    scale_notebook "2" (fun _ => .ok "yes") (fun _ => .ok []) "nok-t-x" =
      (.error ⟨400, "The Notebook notebook_name=" ++ "nok-t-x" ++ " does not exist."⟩,
       [.kubectl authBody, .helm (helmExistsBody "nok-t-x")]) ∧
    scale_notebook "2" (fun _ => .ok "yes")
        (fun _ => .ok [⟨"nok-t-x", "jupyter-notebook-1"⟩]) "nok-t-x" =
      (.error ⟨422, "Input should be 0 or 1"⟩,
       [.kubectl authBody, .helm (helmExistsBody "nok-t-x")]) ∧
    ([Cmd.kubectl authBody, Cmd.helm (helmExistsBody "nok-t-x")] ≠ ([] : List Cmd)) :=
  ⟨rfl, rfl, by decide⟩

/-- Claim C9 as amended: a replica value other than 0 or 1 is rejected by
the route's parameter validation and the scale command is never issued,
but only after the credential probe and the existence listing have run
(FastAPI solves the dependencies before validating the query parameter),
and on an absent name the does-not-exist failure is returned instead of
the validation failure; for replica values 0 and 1 on an existing
resource, the handler issues the scale command against the statefulset
selected by the instance label. -/
theorem C9_amended (scale : String)
    (kubectlRun : List String → Except String String)
    (helmList : List String → Except String (List Release)) (name : String)
    (tok : String) (hAuth : kubectlRun authBody = .ok tok) :
    (∀ entries : List Release, helmList (helmExistsBody name) = .ok entries →
      entries.length = 1 →
      ((scale ≠ "0" → scale ≠ "1" →
        scale_notebook scale kubectlRun helmList name =
          (.error ⟨422, "Input should be 0 or 1"⟩,
           [.kubectl authBody, .helm (helmExistsBody name)])) ∧
       ((scale = "0" ∨ scale = "1") →
        (scale_notebook scale kubectlRun helmList name).2 =
          [.kubectl authBody, .helm (helmExistsBody name),
           .kubectl (scaleBody name (if scale = "1" then 1 else 0))]))) ∧
    (∀ entries : List Release, helmList (helmExistsBody name) = .ok entries →
      entries.length ≠ 1 →
      scale_notebook scale kubectlRun helmList name =
        (.error ⟨400, "The Notebook notebook_name=" ++ name ++ " does not exist."⟩,
         [.kubectl authBody, .helm (helmExistsBody name)])) := by
  constructor
  · intro entries hList hlen
    have hb : (entries.length == 1) = true := by simpa using hlen
    constructor
    · intro h0 h1
      simp [scale_notebook, validate_kube_token, hAuth, existing_notebook_name,
        notebook_exists, hList, hb, h0, h1]
    · intro hs
      cases hrun : kubectlRun (scaleBody name (if scale = "1" then 1 else 0)) <;>
        simp [scale_notebook, validate_kube_token, hAuth, existing_notebook_name,
          notebook_exists, hList, hb, hs, hrun]
  · intro entries hList hlen
    have hb : (entries.length == 1) = false := by simpa using hlen
    simp [scale_notebook, validate_kube_token, hAuth, existing_notebook_name,
      notebook_exists, hList, hb]

/-- Claim C9 amended, witness: scale value 2 on an existing notebook is
rejected after exactly the probe and listing calls; scale value 1 on an
existing notebook issues the scale command after them; scale value 1 on an
absent notebook fails with the does-not-exist error. -/
theorem C9_amended_witness :
    scale_notebook "2" (fun _ => .ok "yes")
        (fun _ => .ok [⟨"nok-t-y", "jupyter-notebook-1"⟩]) "nok-t-y" =
      (.error ⟨422, "Input should be 0 or 1"⟩,
       [.kubectl authBody, .helm (helmExistsBody "nok-t-y")]) ∧
    (scale_notebook "1" (fun _ => .ok "yes")
        (fun _ => .ok [⟨"nok-t-y", "jupyter-notebook-1"⟩]) "nok-t-y").2 =
      [.kubectl authBody, .helm (helmExistsBody "nok-t-y"),
       .kubectl (scaleBody "nok-t-y" 1)] ∧
    scale_notebook "1" (fun _ => .ok "yes") (fun _ => .ok []) "nok-t-y" =
      (.error ⟨400, "The Notebook notebook_name=" ++ "nok-t-y" ++ " does not exist."⟩,
       [.kubectl authBody, .helm (helmExistsBody "nok-t-y")]) :=
  ⟨((C9_amended "2" (fun _ => .ok "yes")
        (fun _ => .ok [⟨"nok-t-y", "jupyter-notebook-1"⟩]) "nok-t-y" "yes" rfl).1
      [⟨"nok-t-y", "jupyter-notebook-1"⟩] rfl (by decide)).1 (by decide) (by decide),
   ((C9_amended "1" (fun _ => .ok "yes")
        (fun _ => .ok [⟨"nok-t-y", "jupyter-notebook-1"⟩]) "nok-t-y" "yes" rfl).1
      [⟨"nok-t-y", "jupyter-notebook-1"⟩] rfl (by decide)).2 (Or.inr rfl),
   (C9_amended "1" (fun _ => .ok "yes") (fun _ => .ok []) "nok-t-y" "yes" rfl).2
      [] rfl (by decide)⟩

/-- Claim C10: a reconciliation failure for an in-scope release yields a
listed notebook whose image, status and start_time are all the default
literal "Error"; and the Notebook model admits exactly the fields name,
image, status and start_time — constructing it with any other keyword is
rejected, while the four declared fields construct it exactly. -/
theorem C10_error_defaults :
    (∀ (fetchInfo : String → Except String NotebookInfo) (releases : List Release)
        (r : Release) (msg : String), r ∈ releases → is_notebook_release r.chart = true →
      fetchInfo r.name = .error msg →
      (⟨r.name, errorLit, errorLit, errorLit⟩ : Notebook) ∈
        (template_context fetchInfo releases).1) ∧
    (∀ (kwargs : List (String × String)) (k v : String), (k, v) ∈ kwargs →
      notebookFields.contains k = false →
      Notebook.fromKwargs kwargs = .error "extra fields not permitted") ∧
    (∀ n i s t : String,
      Notebook.fromKwargs [("name", n), ("image", i), ("status", s), ("start_time", t)] =
        .ok ⟨n, i, s, t⟩) := by
  refine ⟨?_, ?_, fun n i s t => rfl⟩
  · intro fetchInfo releases r msg hmem hscope herr
    exact (template_context_mem_error fetchInfo releases r msg hmem hscope herr).1
  · intro kwargs k v hmem hk
    have hk2 : k ∉ notebookFields := by simpa using hk
    have hall : (kwargs.all fun kv => notebookFields.contains kv.1) = false := by
      rw [List.all_eq_false]
      exact ⟨(k, v), hmem, by simpa using hk2⟩
    simp only [Notebook.fromKwargs, hall]
    simp

/-- Claim C10, witness: a failing fetch on a singleton listing yields the
all-Error notebook, and an unknown keyword is rejected. -/
theorem C10_error_defaults_witness :
    (⟨"nok-u-a", errorLit, errorLit, errorLit⟩ : Notebook) ∈
      (template_context (fun _ => .error "boom") [⟨"nok-u-a", "jupyter-notebook-0.1.0"⟩]).1 ∧
    Notebook.fromKwargs [("name", "n"), ("errors", "boom")] =
      .error "extra fields not permitted" :=
  ⟨C10_error_defaults.1 (fun _ => .error "boom") [⟨"nok-u-a", "jupyter-notebook-0.1.0"⟩]
      ⟨"nok-u-a", "jupyter-notebook-0.1.0"⟩ "boom" (by decide) (by decide) rfl,
   C10_error_defaults.2.1 [("name", "n"), ("errors", "boom")] "errors" "boom"
      (by decide) (by decide)⟩

end NOK
